import Mathlib

set_option maxRecDepth 8000

/-!
Verification development for the repository's single source file,
`src/notebooks/1-Introduction.ipynb`: a tutorial notebook that imports the
medSpaCy clinical NLP library, builds pipelines through `medspacy.load()`,
inspects pipeline metadata and rule data, reads one text file and prints a
slice of it.  The notebook's code cells and their recorded outputs are
embedded below; the library factory itself is not under `src/`, so it is
modelled from the specification where a claim needs it.
-/

namespace MedspacyNotebook

/-- A token-level constraint on the LOWER attribute, as it appears in the
recorded ConText rule patterns of the notebook: either an exact lowercase
string, or membership in a list of lowercase strings (the IN form). -/
inductive LowerSpec where
  | exact (s : String)
  | inSet (ss : List String)
deriving DecidableEq

/-- One token specification of a structural pattern: a LOWER constraint and
an optional OP quantifier (the recorded patterns only use the value "?"). -/
structure TokenSpec where
  lower : LowerSpec
  op : Option String
deriving DecidableEq

/-- A ConText rule item as displayed by the notebook: a literal phrase, a
category label, an optional structural token pattern, and a directional rule
type string. -/
structure ConTextItem where
  literal : String
  category : String
  pattern : Option (List TokenSpec)
  rule : String
deriving DecidableEq

/-- A section pattern record as displayed by the notebook: a section title
paired with a matching string pattern, and nothing else. -/
structure SectionPattern where
  section_title : String
  pattern : String
deriving DecidableEq

/-- Shorthand for a token spec with an exact LOWER constraint and no OP. -/
def tokLower (s : String) : TokenSpec := ⟨LowerSpec.exact s, none⟩

/-- Shorthand for a token spec with an IN constraint and no OP. -/
def tokIn (ss : List String) : TokenSpec := ⟨LowerSpec.inSet ss, none⟩

/-- Shorthand for a token spec with an IN constraint and OP "?". -/
def tokInOpt (ss : List String) : TokenSpec := ⟨LowerSpec.inSet ss, some "?"⟩

/-- Shorthand for a token spec with an exact constraint and OP "?". -/
def tokLowerOpt (s : String) : TokenSpec := ⟨LowerSpec.exact s, some "?"⟩

/-- The output recorded for `context.item_data[:10]` in the notebook: the
first ten default ConText rule items of the default-loaded pipeline. -/
def itemDataPreview : List ConTextItem :=
  [⟨"absence of", "NEGATED_EXISTENCE", none, "FORWARD"⟩,
   ⟨"adequate to rule out", "NEGATED_EXISTENCE",
     some [tokIn ["adequate", "sufficient"], tokLower "to", tokLower "rule",
           tokInOpt ["him", "her", "them", "patient", "pt"], tokLower "out",
           tokInOpt ["against", "for"]], "FORWARD"⟩,
   ⟨"adequate to rule the patient out", "NEGATED_EXISTENCE",
     some [tokIn ["adequate", "sufficient"], tokLower "to", tokLower "rule",
           tokLower "the", tokIn ["patient", "pt"], tokLower "out",
           tokInOpt ["against", "for"]], "FORWARD"⟩,
   ⟨"any other", "NEGATED_EXISTENCE", none, "FORWARD"⟩,
   ⟨"apart from", "NEGATED_EXISTENCE",
     some [tokLower "apart", tokIn ["for", "from"]], "TERMINATE"⟩,
   ⟨"are ruled out", "NEGATED_EXISTENCE",
     some [tokIn ["are", "is", "was"], tokLower "ruled", tokLower "out"],
     "BACKWARD"⟩,
   ⟨"as a cause for", "NEGATED_EXISTENCE",
     some [tokLower "as", tokIn ["a", "an", "the"], tokLowerOpt "secondary",
           tokIn ["cause", "etiology", "source", "reason"],
           tokIn ["for", "of"]], "TERMINATE"⟩,
   ⟨"as has", "NEGATED_EXISTENCE", none, "TERMINATE"⟩,
   ⟨"as needed", "HYPOTHETICAL", none, "FORWARD"⟩,
   ⟨"as well as any", "NEGATED_EXISTENCE", none, "FORWARD"⟩]

/-- The output recorded for `sectionizer.patterns[:10]` in the notebook: the
first ten default section pattern records of the default-loaded pipeline. -/
def patternsPreview : List SectionPattern :=
  [⟨"addendum", "ADDENDUM:"⟩,
   ⟨"addendum", "Addendum:"⟩,
   ⟨"allergies", "ALLERGIC REACTIONS:"⟩,
   ⟨"allergies", "ALLERGIES:"⟩,
   ⟨"chief_complaint", "CC:"⟩,
   ⟨"chief_complaint", "CHIEF COMPLAINT:"⟩,
   ⟨"chief_complaint", "Chief Complaint:"⟩,
   ⟨"comments", "COMMENTS:"⟩,
   ⟨"diagnoses", "ADMISSION DIAGNOSES:"⟩,
   ⟨"diagnoses", "DIAGNOSES:"⟩]

/-- The directional rule type strings appearing in the ConText rule data. -/
def directionStrings : List String := ["FORWARD", "BACKWARD", "TERMINATE"]

/-- The output recorded for `nlp.pipe_names` in the notebook after
`nlp = medspacy.load()`. -/
def cellFivePipeNames : List String :=
  ["tagger", "parser", "target_matcher", "sectionizer", "context",
   "postprocessor"]

/-- The output recorded for `nlp_sectionizer_only.pipe_names` after
`medspacy.load(enable=["sectionizer"])`. -/
def cellFourteenPipeNames : List String := ["sectionizer"]

/-- The output recorded for `nlp_no_pos_dep.pipe_names` after
`medspacy.load(disable=["tagger", "parser"])`. -/
def cellFifteenPipeNames : List String :=
  ["target_matcher", "sectionizer", "context", "postprocessor"]

/-- The output recorded for `en.pipe_names` after `en.add_pipe(context)`. -/
def cellTwentyThreePipeNames : List String :=
  ["tagger", "parser", "ner", "context"]

/-- Modelled from the spec: the component stages that the factory function
`medspacy.load()` (whose implementation is not under `src/`) installs by
default, in pipeline order, matching the recorded notebook output. -/
def defaultPipeNames : List String :=
  ["tagger", "parser", "target_matcher", "sectionizer", "context",
   "postprocessor"]

/-- The configuration surface of `medspacy.load` used by the notebook: an
optional base language-model name, a boolean controlling whether built-in
rule sets are loaded, and optional enable (allow-list) and disable
(deny-list) parameters naming pipeline stages. -/
structure LoadConfig where
  model : Option String
  load_rules : Bool
  enable : Option (List String)
  disable : Option (List String)
deriving DecidableEq

/-- The default configuration of a bare `medspacy.load()` call. -/
def defaultLoadConfig : LoadConfig := ⟨none, true, none, none⟩

/-- Modelled from the spec: the pipe names of the pipeline returned by
`medspacy.load` (not under `src/`) for a given configuration.  The enable
allow-list keeps only the named stages; the disable deny-list removes the
named stages; the relative order of the default stages is preserved.  The
model name and rule flag do not affect which stages are installed. -/
def loadPipeNames (cfg : LoadConfig) : List String :=
  let enabled :=
    match cfg.enable with
    | none => defaultPipeNames
    | some es => defaultPipeNames.filter (fun c => es.contains c)
  match cfg.disable with
  | none => enabled
  | some ds => enabled.filter (fun c => !(ds.contains c))

/-- A Python value supplied as an argument in a `medspacy.load` call of the
notebook: a string, a boolean, or a list of strings. -/
inductive PyVal where
  | str (s : String)
  | bool (b : Bool)
  | strList (ss : List String)
deriving DecidableEq

/-- One argument of a `medspacy.load` call as written in the notebook: an
optional keyword (none for a positional argument) and the supplied value. -/
structure CallArg where
  keyword : Option String
  value : PyVal
deriving DecidableEq

/-- Modelled from the spec: whether an argument is part of the configuration
surface accepted by `medspacy.load` (not under `src/`): a base
language-model name (positional or the `model` keyword, a string), the
`load_rules` boolean, and the `enable` and `disable` stage-name lists. -/
def acceptedLoadArg (a : CallArg) : Bool :=
  match a.keyword, a.value with
  | none, PyVal.str _ => true
  | some "model", PyVal.str _ => true
  | some "load_rules", PyVal.bool _ => true
  | some "enable", PyVal.strList _ => true
  | some "disable", PyVal.strList _ => true
  | _, _ => false

/-- The argument lists of every `medspacy.load` call appearing in the
notebook: the bare call, the German-model call with `load_rules=False`, the
enable-list call and the disable-list call. -/
def notebookLoadCalls : List (List CallArg) :=
  [[],
   [⟨none, PyVal.str "de_core_news_sm"⟩, ⟨some "load_rules", PyVal.bool false⟩],
   [⟨some "enable", PyVal.strList ["sectionizer"]⟩],
   [⟨some "disable", PyVal.strList ["tagger", "parser"]⟩]]

/-- The kinds of observable steps named by the spec's linear-order sentence:
library import, pipeline construction, metadata introspection, file read,
string-slice print. -/
inductive StepKind where
  | importLib
  | pipelineConstruction
  | metadataIntrospection
  | fileRead
  | slicePrint
deriving DecidableEq, BEq

/-- The position of a step kind in the spec's claimed linear order. -/
def kindIdx : StepKind → Nat
  | StepKind.importLib => 0
  | StepKind.pipelineConstruction => 1
  | StepKind.metadataIntrospection => 2
  | StepKind.fileRead => 3
  | StepKind.slicePrint => 4

/-- The observable steps of the notebook's code cells, in execution order
(top to bottom): `import medspacy`; `medspacy.load()`; `nlp.pipe_names`;
`nlp.get_pipe("context")`; `context.item_data[:10]`;
`nlp.get_pipe("sectionizer")`; `sectionizer.patterns[:10]`;
`medspacy.load(enable=...)` then its `pipe_names`;
`medspacy.load(disable=...)` then its `pipe_names`; `import spacy`;
`spacy.load("en_core_web_sm")`; `from medspacy.context import
ConTextComponent`; `ConTextComponent(nlp)`; `en.add_pipe(context)`;
`en.pipe_names`; the file read; `print(text[:500])`. -/
def notebookStepKinds : List StepKind :=
  [StepKind.importLib,                -- import medspacy
   StepKind.pipelineConstruction,     -- nlp = medspacy.load()
   StepKind.metadataIntrospection,    -- nlp.pipe_names
   StepKind.metadataIntrospection,    -- context = nlp.get_pipe("context")
   StepKind.metadataIntrospection,    -- context.item_data[:10]
   StepKind.metadataIntrospection,    -- sectionizer = nlp.get_pipe("sectionizer")
   StepKind.metadataIntrospection,    -- sectionizer.patterns[:10]
   StepKind.pipelineConstruction,     -- medspacy.load(enable=["sectionizer"])
   StepKind.metadataIntrospection,    -- nlp_sectionizer_only.pipe_names
   StepKind.pipelineConstruction,     -- medspacy.load(disable=["tagger","parser"])
   StepKind.metadataIntrospection,    -- nlp_no_pos_dep.pipe_names
   StepKind.importLib,                -- import spacy
   StepKind.pipelineConstruction,     -- en = spacy.load("en_core_web_sm")
   StepKind.importLib,                -- from medspacy.context import ConTextComponent
   StepKind.pipelineConstruction,     -- context = ConTextComponent(nlp)
   StepKind.pipelineConstruction,     -- en.add_pipe(context)
   StepKind.metadataIntrospection,    -- en.pipe_names
   StepKind.fileRead,                 -- with open(...) as f: text = f.read()
   StepKind.slicePrint]               -- print(text[:500])

/-- The step kinds of the notebook mapped to their order indices. -/
def stepIdxs : List Nat := notebookStepKinds.map kindIdx

/-- Whether a list of naturals is monotone non-decreasing. -/
def idxMonotone : List Nat → Bool
  | [] => true
  | [_] => true
  | a :: b :: rest => Nat.ble a b && idxMonotone (b :: rest)

/-- A list of steps respects the spec's linear order when no step of a
later kind occurs before a step of an earlier kind, i.e. the kind indices
are monotone along the list. -/
def stepsOrdered (ks : List StepKind) : Bool :=
  idxMonotone (ks.map kindIdx)

/-- The position of the first step of the given kind in the notebook. -/
def firstPos (k : StepKind) : Nat :=
  notebookStepKinds.findIdx (fun s => s == k)

/-- Python string slicing `s[:n]`: the first `n` characters of `s`, or all
of `s` when it is shorter than `n`. -/
def pySliceTo (s : String) (n : Nat) : String :=
  ⟨s.data.take n⟩

/-- The path opened by the notebook's single `open` call. -/
def dischargePath : String := "./discharge_summary.txt"

/-- The file-level operations the notebook performs, as primitive steps:
`with open(p) as f: text = f.read()` desugars to an open, a read and a
close (the close runs on every exit from the with-block), and
`print(text[:500])` is a slice print. -/
inductive FileOp where
  | openRead (path : String)
  | readAll
  | closeHandle
  | printSlice (n : Nat)
deriving DecidableEq

/-- State of the notebook's file-handling script: the file system (a map
from paths to contents), the stack of open handles, the variable `text`,
and the printed output. -/
structure ScriptState where
  fs : String → Option String
  openHandles : List String
  text : Option String
  output : List String

/-- One step of the file-handling script.  Opening pushes a handle; reading
binds the full contents of the file behind the innermost handle to `text`;
closing pops the handle; printing appends the slice of `text` to the
output and changes nothing else. -/
def runOp (st : ScriptState) (op : FileOp) : ScriptState :=
  match op with
  | FileOp.openRead p => { st with openHandles := p :: st.openHandles }
  | FileOp.readAll =>
      match st.openHandles with
      | [] => st
      | p :: _ => { st with text := st.fs p }
  | FileOp.closeHandle => { st with openHandles := st.openHandles.tail }
  | FileOp.printSlice n =>
      match st.text with
      | none => st
      | some t => { st with output := st.output ++ [pySliceTo t n] }

/-- Run a list of file operations from a state. -/
def runOps (st : ScriptState) (ops : List FileOp) : ScriptState :=
  ops.foldl runOp st

/-- The trace of states a list of operations passes through. -/
def traceOps (st : ScriptState) : List FileOp → List ScriptState
  | [] => [st]
  | op :: ops => st :: traceOps (runOp st op) ops

/-- The file operations of the notebook, in order: the with-block reading
`./discharge_summary.txt` into `text`, then `print(text[:500])`. -/
def notebookFileOps : List FileOp :=
  [FileOp.openRead dischargePath, FileOp.readAll, FileOp.closeHandle,
   FileOp.printSlice 500]

/-- The initial script state over a given file system: no open handles, no
`text` binding, no output. -/
def initialScriptState (fs : String → Option String) : ScriptState :=
  ⟨fs, [], none, []⟩

/-- A file system holding exactly the discharge summary with the given
contents. -/
def dischargeFs (contents : String) : String → Option String :=
  fun p => if p = dischargePath then some contents else none

/-- The number of open operations in a list of file operations. -/
def openCount (ops : List FileOp) : Nat :=
  ops.countP (fun op => match op with
    | FileOp.openRead _ => true
    | _ => false)

/-- The paths opened by a list of file operations. -/
def openedPaths (ops : List FileOp) : List String :=
  ops.filterMap (fun op => match op with
    | FileOp.openRead p => some p
    | _ => none)

/-- The data structures the spec's frame sentence is about: the default
pipeline's stage names, the `en` pipeline's stage names, the ConText rule
items, and the section pattern records. -/
structure ClinicalStructures where
  nlpPipeNames : List String
  enPipeNames : List String
  itemData : List ConTextItem
  sectionPatterns : List SectionPattern
deriving DecidableEq

/-- The operations of the notebook that can touch the tracked structures,
in the order the notebook executes them. -/
inductive NotebookOp where
  | importMedspacy
  | loadDefaultPipeline
  | readNlpPipeNames
  | getPipeContext
  | previewItemData
  | getPipeSectionizer
  | previewSectionPatterns
  | loadWithEnable (cs : List String)
  | loadWithDisable (cs : List String)
  | importSpacy
  | spacyLoadEnCore
  | importConTextComponent
  | buildConTextComponent
  | addPipeContext
  | readEnPipeNames
  | readTextFile
  | printTextSlice
deriving DecidableEq

/-- Where an operation's effect is implemented: inside the imported library,
or in glue code of the notebook itself (attribute reads, list previews,
file read, print). -/
inductive OpSource where
  | library
  | notebookGlue
deriving DecidableEq

/-- Classify each notebook operation: calls into medspacy or spaCy are
library calls; imports, attribute reads, list slicing, the file read and
the print are notebook glue. -/
def opSource : NotebookOp → OpSource
  | NotebookOp.loadDefaultPipeline => OpSource.library
  | NotebookOp.getPipeContext => OpSource.library
  | NotebookOp.getPipeSectionizer => OpSource.library
  | NotebookOp.loadWithEnable _ => OpSource.library
  | NotebookOp.loadWithDisable _ => OpSource.library
  | NotebookOp.spacyLoadEnCore => OpSource.library
  | NotebookOp.buildConTextComponent => OpSource.library
  | NotebookOp.addPipeContext => OpSource.library
  | _ => OpSource.notebookGlue

/-- Modelled from the spec: the pipe names of the spaCy model
`en_core_web_sm` (a tagger, a dependency parser and a named-entity
recognizer), consistent with the notebook's recorded `en.pipe_names`
output after the context component is appended. -/
def enCoreWebSmPipeNames : List String := ["tagger", "parser", "ner"]

/-- Effect of each notebook operation on the tracked structures.  The
library calls construct or extend them: `medspacy.load()` installs the
default stages together with the default ConText rules and section
patterns; `spacy.load` installs the `en_core_web_sm` stages;
`en.add_pipe(context)` appends the context stage to the `en` pipeline.
Glue operations (imports, attribute reads, previews, file read, print)
leave every structure unchanged. -/
def applyOp (s : ClinicalStructures) : NotebookOp → ClinicalStructures
  | NotebookOp.loadDefaultPipeline =>
      { s with nlpPipeNames := defaultPipeNames,
               itemData := itemDataPreview,
               sectionPatterns := patternsPreview }
  | NotebookOp.spacyLoadEnCore =>
      { s with enPipeNames := enCoreWebSmPipeNames }
  | NotebookOp.addPipeContext =>
      { s with enPipeNames := s.enPipeNames ++ ["context"] }
  | _ => s

/-- The notebook's operations in execution order. -/
def notebookScript : List NotebookOp :=
  [NotebookOp.importMedspacy,
   NotebookOp.loadDefaultPipeline,
   NotebookOp.readNlpPipeNames,
   NotebookOp.getPipeContext,
   NotebookOp.previewItemData,
   NotebookOp.getPipeSectionizer,
   NotebookOp.previewSectionPatterns,
   NotebookOp.loadWithEnable ["sectionizer"],
   NotebookOp.loadWithDisable ["tagger", "parser"],
   NotebookOp.importSpacy,
   NotebookOp.spacyLoadEnCore,
   NotebookOp.importConTextComponent,
   NotebookOp.buildConTextComponent,
   NotebookOp.addPipeContext,
   NotebookOp.readEnPipeNames,
   NotebookOp.readTextFile,
   NotebookOp.printTextSlice]

/-- The empty starting structures, before the notebook runs. -/
def initialStructures : ClinicalStructures := ⟨[], [], [], []⟩

/-- Run a prefix of the notebook script over the tracked structures. -/
def runScript (ops : List NotebookOp) : ClinicalStructures :=
  ops.foldl applyOp initialStructures

/-- The tracked structures right before `en.add_pipe(context)` runs: the
script prefix up to and including `ConTextComponent(nlp)`. -/
def structuresBeforeAddPipe : ClinicalStructures :=
  runScript (notebookScript.take 13)

/-! Claim theorems -/

/-- C1: the pipeline returned by `medspacy.load()` with no arguments has
pipe_names equal to exactly `['tagger', 'parser', 'target_matcher',
'sectionizer', 'context', 'postprocessor']`, these six names in this order,
matching the output recorded in the notebook. -/
theorem C1_default_pipe_names :
    loadPipeNames defaultLoadConfig =
      ["tagger", "parser", "target_matcher", "sectionizer", "context",
       "postprocessor"] ∧
    loadPipeNames defaultLoadConfig = cellFivePipeNames :=
  ⟨rfl, rfl⟩

/-- C2 counterexample: the notebook's operations do not leave every tracked
structure unchanged: running `en.add_pipe(context)` from the state the
script reaches just before it changes the `en` pipeline. -/
theorem C2_addpipe_changes_structures :
    applyOp structuresBeforeAddPipe NotebookOp.addPipeContext ≠
      structuresBeforeAddPipe := by
  decide

/-- C2 amended: no logic of the notebook itself creates, mutates or
destroys the tracked structures: every operation that changes any of them
is a call into the imported library, while the notebook's own glue
operations (imports, attribute reads, previews, file read, print) leave
them all unchanged. -/
theorem C2_changes_only_by_library (s : ClinicalStructures) (op : NotebookOp)
    (h : applyOp s op ≠ s) : opSource op = OpSource.library := by
  cases op <;> first | rfl | exact absurd rfl h

/-- C2 witness: the add_pipe operation changes the structures and is a
library call. -/
theorem C2_changes_only_by_library_witness :
    applyOp structuresBeforeAddPipe NotebookOp.addPipeContext ≠
      structuresBeforeAddPipe ∧
    opSource NotebookOp.addPipeContext = OpSource.library :=
  ⟨by decide,
   C2_changes_only_by_library structuresBeforeAddPipe NotebookOp.addPipeContext
     (by decide)⟩

/-- C3: in every `medspacy.load` call of the notebook, each supplied
argument belongs to the factory's configuration surface: a positional base
language-model name, the `load_rules` boolean, or the `enable` and
`disable` stage-name lists; and the notebook makes exactly four such
calls. -/
theorem C3_load_calls_within_surface :
    (notebookLoadCalls.all (fun call => call.all acceptedLoadArg)) = true ∧
    notebookLoadCalls.length = 4 := by
  exact ⟨by decide, rfl⟩

/-- C4 counterexample: the notebook's observable steps are not monotone in
the claimed order import → construction → introspection → file read →
slice print: for instance `medspacy.load(enable=["sectionizer"])`
(pipeline construction) runs after `nlp.pipe_names` (metadata
introspection), and `import spacy` runs after several constructions. -/
theorem C4_steps_not_linearly_ordered :
    stepsOrdered notebookStepKinds = false := by
  decide

/-- C4 amended: the first library import precedes the first pipeline
construction, which precedes the first metadata introspection; imports,
constructions and introspections then interleave; and the notebook ends
with the file read followed by the string-slice print as its last two
steps. -/
theorem C4_first_occurrences_ordered :
    firstPos StepKind.importLib < firstPos StepKind.pipelineConstruction ∧
    firstPos StepKind.pipelineConstruction <
      firstPos StepKind.metadataIntrospection ∧
    firstPos StepKind.metadataIntrospection < firstPos StepKind.fileRead ∧
    firstPos StepKind.fileRead < firstPos StepKind.slicePrint ∧
    notebookStepKinds.drop 17 = [StepKind.fileRead, StepKind.slicePrint] ∧
    notebookStepKinds.length = 19 := by
  decide

/-- C5: the notebook reads `./discharge_summary.txt`, binds its entire
contents to `text`, prints exactly `text[:500]` (the first 500 characters,
or all of the contents when they are shorter), and `text` still holds the
full contents afterwards. -/
theorem C5_file_read_and_slice (contents : String) :
    (runOps (initialScriptState (dischargeFs contents)) notebookFileOps).text
      = some contents ∧
    (runOps (initialScriptState (dischargeFs contents)) notebookFileOps).output
      = [pySliceTo contents 500] ∧
    (pySliceTo contents 500).data = contents.data.take 500 ∧
    (contents.data.length ≤ 500 → pySliceTo contents 500 = contents) := by
  refine ⟨rfl, rfl, rfl, ?_⟩
  intro h
  cases contents with
  | mk data =>
    show String.mk (data.take 500) = String.mk data
    rw [List.take_of_length_le h]

/-- C5 witness: on a concrete short file the whole contents are printed and
`text` holds them. -/
theorem C5_file_read_and_slice_witness :
    pySliceTo "summary" 500 = "summary" ∧
    (runOps (initialScriptState (dischargeFs "summary")) notebookFileOps).text
      = some "summary" :=
  ⟨(C5_file_read_and_slice "summary").2.2.2 (by decide),
   (C5_file_read_and_slice "summary").1⟩

/-- C6: every rule item in the recorded `context.item_data` preview of the
default-loaded pipeline carries exactly the four fields literal phrase,
category label, optional structural pattern and directional rule type, and
its rule type is one of the direction strings FORWARD, BACKWARD,
TERMINATE. -/
theorem C6_rule_item_shape :
    itemDataPreview.length = 10 ∧
    (itemDataPreview.all (fun it => directionStrings.contains it.rule))
      = true ∧
    ∀ it : ConTextItem, it = ⟨it.literal, it.category, it.pattern, it.rule⟩ :=
  ⟨rfl, by decide, fun it => rfl⟩

/-- C7: every record in the recorded `sectionizer.patterns` preview of the
default-loaded pipeline pairs exactly a section title string with a
matching string pattern and contains no other fields: each record is fully
determined by that pair, and the ten recorded pairs are listed. -/
theorem C7_section_pattern_shape :
    patternsPreview.length = 10 ∧
    patternsPreview.map (fun r => (r.section_title, r.pattern)) =
      [("addendum", "ADDENDUM:"), ("addendum", "Addendum:"),
       ("allergies", "ALLERGIC REACTIONS:"), ("allergies", "ALLERGIES:"),
       ("chief_complaint", "CC:"), ("chief_complaint", "CHIEF COMPLAINT:"),
       ("chief_complaint", "Chief Complaint:"), ("comments", "COMMENTS:"),
       ("diagnoses", "ADMISSION DIAGNOSES:"),
       ("diagnoses", "DIAGNOSES:")] ∧
    ∀ r : SectionPattern, r = ⟨r.section_title, r.pattern⟩ :=
  ⟨rfl, rfl, fun _ => rfl⟩

/-- C8: the notebook performs exactly one open, on
`./discharge_summary.txt`; along the run of its file operations the handle
is open exactly during the read inside the with-block and is closed on
exit, so no handle remains open afterwards. -/
theorem C8_single_scoped_open (contents : String) :
    openCount notebookFileOps = 1 ∧
    openedPaths notebookFileOps = [dischargePath] ∧
    (traceOps (initialScriptState (dischargeFs contents))
        notebookFileOps).map ScriptState.openHandles =
      [[], [dischargePath], [dischargePath], [], []] :=
  ⟨rfl, rfl, rfl⟩

/-- C9: `medspacy.load(disable=["tagger", "parser"])` yields the default
pipe_names with exactly those two components removed and the order of the
rest preserved, namely `['target_matcher', 'sectionizer', 'context',
'postprocessor']`, matching the recorded notebook output. -/
theorem C9_disable_removes_in_order :
    loadPipeNames ⟨none, true, none, some ["tagger", "parser"]⟩ =
      ["target_matcher", "sectionizer", "context", "postprocessor"] ∧
    loadPipeNames ⟨none, true, none, some ["tagger", "parser"]⟩ =
      defaultPipeNames.filter
        (fun c => !(["tagger", "parser"].contains c)) ∧
    loadPipeNames ⟨none, true, none, some ["tagger", "parser"]⟩ =
      cellFifteenPipeNames ∧
    List.Sublist (loadPipeNames ⟨none, true, none, some ["tagger", "parser"]⟩)
      (loadPipeNames defaultLoadConfig) := by
  refine ⟨rfl, rfl, rfl, ?_⟩
  exact List.filter_sublist _

/-- C10: `en.add_pipe(context)` appends the context component as the last
stage of the `en` pipeline and changes nothing else: en's pipe_names go
from `['tagger', 'parser', 'ner']` to `['tagger', 'parser', 'ner',
'context']`, matching the recorded notebook output, and all other tracked
structures are unchanged. -/
theorem C10_add_pipe_appends :
    structuresBeforeAddPipe.enPipeNames = ["tagger", "parser", "ner"] ∧
    (applyOp structuresBeforeAddPipe NotebookOp.addPipeContext).enPipeNames =
      structuresBeforeAddPipe.enPipeNames ++ ["context"] ∧
    (applyOp structuresBeforeAddPipe NotebookOp.addPipeContext).enPipeNames =
      cellTwentyThreePipeNames ∧
    (applyOp structuresBeforeAddPipe NotebookOp.addPipeContext).nlpPipeNames =
      structuresBeforeAddPipe.nlpPipeNames ∧
    (applyOp structuresBeforeAddPipe NotebookOp.addPipeContext).itemData =
      structuresBeforeAddPipe.itemData ∧
    (applyOp structuresBeforeAddPipe
        NotebookOp.addPipeContext).sectionPatterns =
      structuresBeforeAddPipe.sectionPatterns :=
  ⟨rfl, rfl, rfl, rfl, rfl, rfl⟩

end MedspacyNotebook
